import Mathlib

/-!
Verification of the ProblemFinder convergence/orchestration core.

The definitions below are a shallow embedding of the TypeScript source:
  * text helpers model the JavaScript string primitives used by the code
    (trim, toLowerCase, includes, indexOf/lastIndexOf);
  * `isUniqueResponse` embeds src/app/page.tsx;
  * the IdeaBank operations embed the like / add-your-own / remove handlers
    of the CoFounderLabStep component;
  * the convergence handlers (generateInitialReflection, proceedToSelection,
    generateSelectionAI, the onLock handler, handleReset, the auto-start
    effect) embed the same component, with the external reasoning call
    modelled as an explicit `Option ApiResult` argument (none = network
    failure caught by the try/catch) and persistence modelled as a list of
    emitted writes;
  * `buildContext` / `process` embed the AIOrchestrator;
  * `parseResponse` / `tryExtractArray` embed ReviewAssistant.
-/

namespace ProblemFinder

/-- JavaScript whitespace as used by String.trim and the \s regex class
(ASCII portion; the code never relies on exotic Unicode spaces). -/
def jsWS (c : Char) : Bool :=
  c == ' ' || c == '\t' || c == '\n' || c == '\r' || c == '\x0B' || c == '\x0C'

/-- Left trim, JavaScript String.trim left half. -/
def trimL (s : List Char) : List Char := s.dropWhile jsWS

/-- Right trim, JavaScript String.trim right half. -/
def trimR (s : List Char) : List Char := (s.reverse.dropWhile jsWS).reverse

/-- JavaScript String.trim. -/
def jsTrim (s : List Char) : List Char := trimR (trimL s)

/-- JavaScript String.toLowerCase (ASCII portion). -/
def jsLower (s : List Char) : List Char := s.map Char.toLower

/-- The normalization the spec attributes to IdeaBank dedup: trim then lowercase. -/
def normalize (s : List Char) : List Char := jsLower (jsTrim s)

/-! ## Response Validator (src/app/page.tsx) -/

/-- Embeds `isUniqueResponse(response, allResponses)` from src/app/page.tsx:
normalizes to trim+lowercase, returns true immediately for empty input,
otherwise counts normalized occurrences in the corpus. -/
def isUniqueResponse (response : List Char) (allResponses : List (List Char)) : Bool :=
  let trimmed := jsLower (jsTrim response)
  if trimmed.length = 0 then true
  else ((allResponses.map (fun r => jsLower (jsTrim r))).filter (fun r => r == trimmed)).length ≤ 1

/-! ## IdeaBank operations (CoFounderLabStep, src/unnamed/part_002)

The bank lives in `labData.ideaBank` (a string array, absent = empty).
Three handlers mutate it:
  * the Like button: rejects when the exact variant string is already in the
    bank or the bank has 3 entries, otherwise appends;
  * the add-your-own form: trims the input, rejects empty input, a full bank,
    or an exact duplicate of the trimmed input, otherwise appends;
  * the Remove button: filters out entries exactly equal to the item.
-/

/-- An IdeaBank mutation the UI can perform. -/
inductive BankOp where
  | like (variant : List Char)
  | addOwn (rawInput : List Char)
  | remove (item : List Char)

/-- Like-button onClick: `if (inBank || maxed) return` then append. -/
def bankLike (bank : List (List Char)) (variant : List Char) : List (List Char) :=
  if variant ∈ bank then bank
  else if 3 ≤ bank.length then bank
  else bank ++ [variant]

/-- Add-your-own onSubmit: trims, then the three guards, then append. -/
def bankAddOwn (bank : List (List Char)) (rawInput : List Char) : List (List Char) :=
  let val := jsTrim rawInput
  if val = [] then bank
  else if 3 ≤ bank.length then bank
  else if val ∈ bank then bank
  else bank ++ [val]

/-- Remove onClick: `ideaBank.filter((v) => v !== item)`. -/
def bankRemove (bank : List (List Char)) (item : List Char) : List (List Char) :=
  bank.filter (fun v => ¬ v = item)

/-- Dispatch one operation. -/
def applyBankOp (bank : List (List Char)) : BankOp → List (List Char)
  | .like v => bankLike bank v
  | .addOwn r => bankAddOwn bank r
  | .remove i => bankRemove bank i

/-- Run a sequence of operations from the empty bank. -/
def runBankOps (ops : List BankOp) : List (List Char) :=
  ops.foldl applyBankOp []

/-- The invariant claimed by the spec: bound 3 and no two entries equal
after trim+lowercase normalization. -/
def bankClaimC1 (ops : List BankOp) : Prop :=
  (runBankOps ops).length ≤ 3 ∧
  (runBankOps ops).Pairwise (fun a b => normalize a ≠ normalize b)

theorem applyBankOp_inv (bank : List (List Char)) (op : BankOp)
    (h1 : bank.length ≤ 3) (h2 : bank.Nodup) :
    (applyBankOp bank op).length ≤ 3 ∧ (applyBankOp bank op).Nodup := by
  cases op with
  | like v =>
    simp only [applyBankOp, bankLike]
    split
    · exact ⟨h1, h2⟩
    · split
      · exact ⟨h1, h2⟩
      · rename_i hmem hlen
        constructor
        · simp only [List.length_append, List.length_singleton]
          omega
        · refine List.Nodup.append h2 (List.nodup_singleton v) ?_
          intro a ha hav
          simp only [List.mem_singleton] at hav
          exact hmem (hav ▸ ha)
  | addOwn r =>
    simp only [applyBankOp, bankAddOwn]
    split
    · exact ⟨h1, h2⟩
    · split
      · exact ⟨h1, h2⟩
      · split
        · exact ⟨h1, h2⟩
        · rename_i hlen hmem
          constructor
          · simp only [List.length_append, List.length_singleton]
            omega
          · refine List.Nodup.append h2 (List.nodup_singleton _) ?_
            intro a ha hav
            simp only [List.mem_singleton] at hav
            exact hmem (hav ▸ ha)
  | remove i =>
    simp only [applyBankOp, bankRemove]
    constructor
    · exact le_trans (List.length_filter_le _ _) h1
    · exact List.Nodup.filter _ h2

theorem foldl_bankOps_inv (ops : List BankOp) :
    ∀ bank, bank.length ≤ 3 → bank.Nodup →
      (ops.foldl applyBankOp bank).length ≤ 3 ∧ (ops.foldl applyBankOp bank).Nodup := by
  induction ops with
  | nil => intro bank h1 h2; exact ⟨h1, h2⟩
  | cons op rest ih =>
    intro bank h1 h2
    simp only [List.foldl_cons]
    have h := applyBankOp_inv bank op h1 h2
    exact ih _ h.1 h.2

/-- C1 (counterexample): the claimed trim+lowercase deduplication fails.
Adding the own idea "Foo" and then the own idea "foo" passes the exact
`includes` guard, leaving two entries that are equal after normalization. -/
theorem bankClaimC1_cex :
    ¬ bankClaimC1 [BankOp.addOwn ("Foo".data), BankOp.addOwn ("foo".data)] := by
  intro h
  have h2 := h.2
  have : runBankOps [BankOp.addOwn ("Foo".data), BankOp.addOwn ("foo".data)] =
      ["Foo".data, "foo".data] := by decide
  rw [this] at h2
  have hne := (List.pairwise_cons.mp h2).1 ("foo".data) (by simp)
  exact hne (by decide)

/-- C1 (amended): under any sequence of like / add-your-own / remove
operations from the empty bank, the IdeaBank never exceeds 3 entries and
never holds two identical entries — deduplication is by exact string
equality (the add-your-own input is trimmed first), not by trim+lowercase
normalization. -/
theorem runBankOps_bound_nodup (ops : List BankOp) :
    (runBankOps ops).length ≤ 3 ∧ (runBankOps ops).Nodup :=
  foldl_bankOps_inv ops [] (by simp) (by simp)

/-- C10: isUniqueResponse returns true whenever the trimmed text is empty,
whatever the corpus contains — the duplicate count is skipped entirely. -/
theorem isUniqueResponse_empty_true (response : List Char) (allResponses : List (List Char))
    (h : jsTrim response = []) : isUniqueResponse response allResponses = true := by
  simp [isUniqueResponse, h, jsLower]

/-- C10 witness: a whitespace-only response is unique even in a corpus
holding the empty text twice. -/
theorem isUniqueResponse_empty_true_witness :
    isUniqueResponse ("   ".data) ["".data, "".data] = true :=
  isUniqueResponse_empty_true ("   ".data) ["".data, "".data] (by decide)

/-! ## Convergence state machine (CoFounderLabStep, src/unnamed/part_002)

The component tracks `labData : CoFounderLabData` plus refs/flags
(`hasAutoStarted`, `hasInitialized`, `isAIThinking`).  The external `/api/ai`
call is modelled as an explicit `Option ApiResult` argument: `none` is a
thrown fetch / json error caught by the surrounding try/catch, `some r` a
parsed response body.  Persistence (`updateProject`) is modelled as a list
of emitted writes.  The handlers below assume `actualProjectId` is present,
as their early-return guards require for anything to happen at all. -/

/-- The `StageId` union of the component. -/
inductive StageId where
  | initialReflection
  | choosingDirections
  | coDesign
  | variants
  | selection
  | nextPanel
  | completed
deriving DecidableEq

/-- The role of a conversation message. -/
inductive MsgRole where
  | ai
  | student
deriving DecidableEq

/-- A `Message` of the conversation history. -/
structure Message where
  role : MsgRole
  content : List Char
  timestamp : Nat
  stage : StageId
deriving DecidableEq

/-- The `ProposedSolution` record written when the learner locks a variant. -/
structure ProposedSolution where
  title : List Char
  description : List Char
  whoItsFor : List Char
  howItWorks : List Char
  whyItMatters : List Char
deriving DecidableEq

/-- `CoFounderLabData`: optional fields are absent (`none`) until written. -/
structure CoFounderLabData where
  conversationHistory : List Message
  currentStage : StageId
  selectedSolutions : List (List Char)
  proposedSolution : Option ProposedSolution := none
  coDesignPhase : Option (List Char) := none
  variantOptions : Option (List (List Char)) := none
  ideaBank : Option (List (List Char)) := none
  lockedVariant : Option (List Char) := none
deriving DecidableEq

/-- `EMPTY_LAB_DATA` from the source. -/
def EMPTY_LAB_DATA : CoFounderLabData where
  conversationHistory := []
  currentStage := StageId.initialReflection
  selectedSolutions := []
  coDesignPhase := some ("choose-direction".data)

/-- The parsed `/api/ai` response body as the component reads it. -/
structure ApiResult where
  success : Bool
  feedback : Option (List (List Char)) := none
  generatedItems : Option (List (List Char)) := none
deriving DecidableEq

/-- `result.success && result.feedback` — the guard under which the
component consumes a reasoning response (an array, even empty, is truthy). -/
def apiAccepted : Option ApiResult → Bool
  | some r => r.success && r.feedback.isSome
  | none => false

/-- `feedback.join('\n\n')`. -/
def joinParas (paras : List (List Char)) : List Char :=
  List.intercalate ("\n\n".data) paras

/-- The arguments of one reasoning-gateway call issued by the component
(the fields of the fetch body relevant to the claims). -/
structure ReasoningCall where
  stage : StageId
  conversationHistory : List Message
  ideaBank : List (List Char)
deriving DecidableEq

/-- `generateInitialReflection`: on an accepted response, REPLACES the
conversation history with the single reflection message and advances the
stage to choosing-directions; otherwise leaves labData untouched. -/
def generateInitialReflection (labData : CoFounderLabData)
    (result : Option ApiResult) (now : Nat) : CoFounderLabData :=
  match result with
  | none => labData
  | some r =>
    match r.feedback, r.success with
    | some fb, true =>
      { labData with
        conversationHistory := [⟨MsgRole.ai, joinParas fb, now, StageId.initialReflection⟩]
        currentStage := StageId.choosingDirections }
    | _, _ => labData

/-- `generateSelectionAI`: always issues exactly one reasoning call carrying
the conversation history and the idea bank; on an accepted response appends
one ai message, otherwise leaves the data untouched. -/
def generateSelectionAI (data : CoFounderLabData)
    (result : Option ApiResult) (now : Nat) : CoFounderLabData × List ReasoningCall :=
  let call : ReasoningCall :=
    ⟨StageId.selection, data.conversationHistory, data.ideaBank.getD []⟩
  match result with
  | none => (data, [call])
  | some r =>
    match r.feedback, r.success with
    | some fb, true =>
      ({ data with conversationHistory :=
          data.conversationHistory ++ [⟨MsgRole.ai, joinParas fb, now, StageId.selection⟩] },
       [call])
    | _, _ => (data, [call])

/-- `proceedToSelection`: rejects while the bank has fewer than 3 entries;
otherwise stores `currentStage = selection` FIRST and only then calls
`generateSelectionAI`. -/
def proceedToSelection (labData : CoFounderLabData)
    (result : Option ApiResult) (now : Nat) : CoFounderLabData × List ReasoningCall :=
  if (labData.ideaBank.getD []).length < 3 then (labData, [])
  else
    generateSelectionAI { labData with currentStage := StageId.selection } result now

/-- The decision-tree seed written by the lock handler:
`possible/planetImpact/impact/originality` all start as empty maps. -/
structure DecisionData where
  possible : List (List Char × Bool) := []
  planetImpact : List (List Char × Bool) := []
  impact : List (List Char × Bool) := []
  originality : List (List Char × Bool) := []
deriving DecidableEq

/-- One `updateProject` persistence write emitted by the component. -/
inductive ProjectWrite where
  | setCoFounderLab (data : Option CoFounderLabData)
  | advanceJourney (currentStepId : List Char) (decision : DecisionData)
deriving DecidableEq

/-- The persisted project document fields these writes touch. -/
structure ProjectDoc where
  coFounderLab : Option CoFounderLabData := none
  currentStepId : Option (List Char) := none
  decision : Option DecisionData := none
deriving DecidableEq

/-- Apply one write to the persisted document. -/
def applyWrite (p : ProjectDoc) : ProjectWrite → ProjectDoc
  | .setCoFounderLab d => { p with coFounderLab := d }
  | .advanceJourney stepId dec => { p with currentStepId := some stepId, decision := some dec }

/-- Apply a list of writes left to right. -/
def applyWrites (p : ProjectDoc) (ws : List ProjectWrite) : ProjectDoc :=
  ws.foldl applyWrite p

/-- The VariantSelector onLock handler: builds the proposed solution, sets
`lockedVariant` and `currentStage = completed`, saves that via one
`updateProject` write, then issues a SECOND separate `updateProject` write
advancing the journey to decision-tree with a freshly seeded decision state. -/
def onLockVariant (labData : CoFounderLabData) (choice : List Char) :
    CoFounderLabData × List ProjectWrite :=
  let proposed : ProposedSolution :=
    ⟨"Chosen Direction".data, choice, [], [], []⟩
  let next : CoFounderLabData :=
    { labData with
      lockedVariant := some choice
      proposedSolution := some proposed
      currentStage := StageId.completed }
  (next,
   [ProjectWrite.setCoFounderLab (some next),
    ProjectWrite.advanceJourney ("decision-tree".data) {}])

/-- Component-level state around labData: the refs and flags the auto-start
effect reads, plus the checkbox selection state cleared by reset. -/
structure ComponentState where
  labData : CoFounderLabData
  hasAutoStarted : Bool
  hasInitialized : Bool
  isAIThinking : Bool
  projectHasSolutionWheel : Bool
  hasProjectId : Bool
  selectedSolutions : List (List Char) := []
deriving DecidableEq

/-- The auto-start useEffect condition guarding `generateInitialReflection`. -/
def autoStartCond (s : ComponentState) : Bool :=
  !s.hasAutoStarted && s.hasInitialized &&
  (s.labData.conversationHistory.length == 0) &&
  s.projectHasSolutionWheel && !s.isAIThinking && s.hasProjectId

/-- One evaluation of the auto-start effect: when the condition holds, the
one-shot ref is set BEFORE the reflection call runs. -/
def evalAutoStart (s : ComponentState) (result : Option ApiResult) (now : Nat) :
    ComponentState :=
  if autoStartCond s then
    { s with
      hasAutoStarted := true
      labData := generateInitialReflection s.labData result now }
  else s

/-- `handleReset`: restores EMPTY_LAB_DATA, clears the checkbox selection,
re-arms the one-shot ref, and emits the `coFounderLab: null` write. -/
def handleReset (s : ComponentState) : ComponentState × List ProjectWrite :=
  ({ s with
      labData := EMPTY_LAB_DATA
      selectedSolutions := []
      hasAutoStarted := false },
   [ProjectWrite.setCoFounderLab none])

/-- A lab state sitting in the variants stage with a full bank of 3. -/
def labAtVariantsFull : CoFounderLabData :=
  { EMPTY_LAB_DATA with
    currentStage := StageId.variants
    ideaBank := some ["idea one".data, "idea two".data, "idea three".data] }

theorem evalAutoStart_noop (s : ComponentState) (r : Option ApiResult) (now : Nat)
    (h : autoStartCond s = false) : evalAutoStart s r now = s := by
  simp [evalAutoStart, h]

theorem generateSelectionAI_stage (data : CoFounderLabData)
    (r : Option ApiResult) (now : Nat) :
    (generateSelectionAI data r now).1.currentStage = data.currentStage := by
  cases r with
  | none => rfl
  | some res =>
    simp only [generateSelectionAI]
    cases res.feedback <;> cases hs : res.success <;> rfl

theorem generateSelectionAI_calls (data : CoFounderLabData)
    (r : Option ApiResult) (now : Nat) :
    (generateSelectionAI data r now).2 =
      [⟨StageId.selection, data.conversationHistory, data.ideaBank.getD []⟩] := by
  cases r with
  | none => rfl
  | some res =>
    simp only [generateSelectionAI]
    cases res.feedback <;> cases hs : res.success <;> rfl

/-- C2 (counterexample): a failed reasoning call does not leave the stage
unchanged on the Variants→Selection transition.  With a full bank and a
network failure (`none`), the stored stage has already moved from variants
to selection before the call returned. -/
theorem proceedToSelection_advances_on_failed_call :
    apiAccepted none = false ∧
    labAtVariantsFull.currentStage = StageId.variants ∧
    (proceedToSelection labAtVariantsFull none 0).1.currentStage = StageId.selection := by
  refine ⟨rfl, rfl, ?_⟩
  decide

/-- C2 (amended): the Reflect→Choose transition advances the stage only
after an accepted reasoning response — on failure the stored lab data is
unchanged — while the Variants→Selection handler stores the selection stage
before issuing its reasoning call, so the stage is advanced whatever the
call returns. -/
theorem gateway_transition_failure_semantics (d : CoFounderLabData)
    (r : Option ApiResult) (now : Nat) :
    (apiAccepted r = false → generateInitialReflection d r now = d) ∧
    (3 ≤ (d.ideaBank.getD []).length →
      (proceedToSelection d r now).1.currentStage = StageId.selection) := by
  constructor
  · intro h
    cases r with
    | none => rfl
    | some res =>
      simp only [apiAccepted, Bool.and_eq_false_iff] at h
      simp only [generateInitialReflection]
      cases hf : res.feedback with
      | none => rfl
      | some fb =>
        cases hs : res.success with
        | false => rfl
        | true =>
          exfalso
          rcases h with h | h
          · rw [hs] at h; exact Bool.noConfusion h
          · rw [hf] at h; simp at h
  · intro h
    simp only [proceedToSelection]
    rw [if_neg (by omega)]
    rw [generateSelectionAI_stage]

/-- C2 witness: the amended theorem applied at concrete inputs. -/
theorem gateway_transition_failure_semantics_witness :
    generateInitialReflection EMPTY_LAB_DATA none 0 = EMPTY_LAB_DATA ∧
    (proceedToSelection labAtVariantsFull none 0).1.currentStage = StageId.selection :=
  ⟨(gateway_transition_failure_semantics EMPTY_LAB_DATA none 0).1 rfl,
   (gateway_transition_failure_semantics labAtVariantsFull none 0).2 (by decide)⟩

/-- A lab state sitting in the selection stage with a full bank. -/
def labAtSelection : CoFounderLabData :=
  { labAtVariantsFull with currentStage := StageId.selection }

/-- C3 (counterexample): locking is not a single atomic update.  The onLock
handler emits two separate persistence writes; applying only the first
leaves the stage changed to completed with the locked variant set while the
downstream decision state is still unseeded. -/
theorem onLock_not_single_write :
    (onLockVariant labAtSelection ("idea one".data)).2.length = 2 ∧
    ¬ (onLockVariant labAtSelection ("idea one".data)).2.length = 1 ∧
    (applyWrites {} ((onLockVariant labAtSelection ("idea one".data)).2.take 1)).decision
        = none ∧
    (applyWrites {} ((onLockVariant labAtSelection ("idea one".data)).2.take 1)).coFounderLab
        = some (onLockVariant labAtSelection ("idea one".data)).1 ∧
    (onLockVariant labAtSelection ("idea one".data)).1.currentStage = StageId.completed := by
  refine ⟨rfl, by decide, rfl, rfl, rfl⟩

/-- C3 (amended): the Selection→Locked transition sets the locked variant,
the proposed solution and the completed stage in a first write, then seeds
the downstream decision-tree state and advances the journey step in a
SECOND, separate write; only after both writes is the downstream state
seeded, and after the first write alone the stage is changed while the
downstream state is unseeded. -/
theorem onLockVariant_two_step (labData : CoFounderLabData) (choice : List Char) :
    (onLockVariant labData choice).1.currentStage = StageId.completed ∧
    (onLockVariant labData choice).1.lockedVariant = some choice ∧
    (onLockVariant labData choice).2 =
      [ProjectWrite.setCoFounderLab (some (onLockVariant labData choice).1),
       ProjectWrite.advanceJourney ("decision-tree".data) {}] ∧
    (applyWrites {} ((onLockVariant labData choice).2.take 1)).decision = none ∧
    (applyWrites {} (onLockVariant labData choice).2).decision = some {} ∧
    (applyWrites {} (onLockVariant labData choice).2).currentStepId =
      some ("decision-tree".data) := by
  exact ⟨rfl, rfl, rfl, rfl, rfl, rfl⟩

/-- C6: with the reachable-bank invariant (at most 3 entries), the
Variants→Selection transition is rejected without a stage change or a call
when the bank holds 2 entries; with a full bank of 3 it advances the stage
and issues exactly one reasoning call presenting all banked ideas; and it
issues a call only when the bank holds exactly 3 entries. -/
theorem proceedToSelection_gate (d : CoFounderLabData) (r : Option ApiResult) (now : Nat)
    (hinv : (d.ideaBank.getD []).length ≤ 3) :
    ((d.ideaBank.getD []).length = 2 → proceedToSelection d r now = (d, [])) ∧
    ((d.ideaBank.getD []).length = 3 →
      (proceedToSelection d r now).1.currentStage = StageId.selection ∧
      (proceedToSelection d r now).2 =
        [⟨StageId.selection, d.conversationHistory, d.ideaBank.getD []⟩]) ∧
    ((proceedToSelection d r now).2 ≠ [] → (d.ideaBank.getD []).length = 3) := by
  refine ⟨?_, ?_, ?_⟩
  · intro h
    simp only [proceedToSelection]
    rw [if_pos (by omega)]
  · intro h
    simp only [proceedToSelection]
    rw [if_neg (by omega)]
    refine ⟨generateSelectionAI_stage _ _ _, ?_⟩
    rw [generateSelectionAI_calls]
  · intro h
    by_contra hne
    have hlt : (d.ideaBank.getD []).length < 3 := by omega
    simp only [proceedToSelection, if_pos hlt] at h
    exact h rfl

/-- A lab state sitting in the variants stage with 2 banked ideas. -/
def labAtVariantsTwo : CoFounderLabData :=
  { EMPTY_LAB_DATA with
    currentStage := StageId.variants
    ideaBank := some ["idea one".data, "idea two".data] }

/-- C6 witness: the gate applied at a 2-entry bank (rejected) and at the
3-entry bank (advanced, one call carrying the whole bank). -/
theorem proceedToSelection_gate_witness :
    proceedToSelection labAtVariantsTwo none 0 = (labAtVariantsTwo, []) ∧
    (proceedToSelection labAtVariantsFull none 0).1.currentStage = StageId.selection ∧
    (proceedToSelection labAtVariantsFull none 0).2 =
      [⟨StageId.selection, labAtVariantsFull.conversationHistory,
        labAtVariantsFull.ideaBank.getD []⟩] :=
  ⟨(proceedToSelection_gate labAtVariantsTwo none 0 (by decide)).1 (by decide),
   (proceedToSelection_gate labAtVariantsFull none 0 (by decide)).2.1 (by decide)⟩

/-- C7: starting at Reflect with an empty history and the one-shot ref
unarmed, evaluating the auto-start trigger twice produces exactly one
reflection entry and exactly one Reflect→Choose transition: the first
evaluation arms the ref, records the single reflection message and advances
the stage; the second evaluation is a no-op. -/
theorem autoStart_fires_once (s0 : ComponentState) (r1 : ApiResult)
    (fb : List (List Char)) (r2 : Option ApiResult) (now1 now2 : Nat)
    (hstage : s0.labData.currentStage = StageId.initialReflection)
    (hhist : s0.labData.conversationHistory = [])
    (hguard : s0.hasAutoStarted = false)
    (hinit : s0.hasInitialized = true)
    (hwheel : s0.projectHasSolutionWheel = true)
    (hthink : s0.isAIThinking = false)
    (hpid : s0.hasProjectId = true)
    (hsuc : r1.success = true) (hfb : r1.feedback = some fb) :
    (evalAutoStart s0 (some r1) now1).labData.conversationHistory =
      [⟨MsgRole.ai, joinParas fb, now1, StageId.initialReflection⟩] ∧
    (evalAutoStart s0 (some r1) now1).labData.currentStage =
      StageId.choosingDirections ∧
    (evalAutoStart s0 (some r1) now1).hasAutoStarted = true ∧
    evalAutoStart (evalAutoStart s0 (some r1) now1) r2 now2 =
      evalAutoStart s0 (some r1) now1 := by
  have hcond : autoStartCond s0 = true := by
    simp [autoStartCond, hguard, hinit, hhist, hwheel, hthink, hpid]
  have hrefl : generateInitialReflection s0.labData (some r1) now1 =
      { s0.labData with
        conversationHistory := [⟨MsgRole.ai, joinParas fb, now1, StageId.initialReflection⟩]
        currentStage := StageId.choosingDirections } := by
    simp only [generateInitialReflection, hfb, hsuc]
  have hs1 : evalAutoStart s0 (some r1) now1 =
      { s0 with
        hasAutoStarted := true
        labData :=
          { s0.labData with
            conversationHistory :=
              [⟨MsgRole.ai, joinParas fb, now1, StageId.initialReflection⟩]
            currentStage := StageId.choosingDirections } } := by
    simp only [evalAutoStart, hcond, if_true, hrefl]
  refine ⟨by rw [hs1], by rw [hs1], by rw [hs1], ?_⟩
  have hcond2 : autoStartCond (evalAutoStart s0 (some r1) now1) = false := by
    rw [hs1]; simp [autoStartCond]
  exact evalAutoStart_noop _ r2 now2 hcond2

/-- A concrete fresh component state for the C7 and C8 witnesses. -/
def freshComponent : ComponentState where
  labData := EMPTY_LAB_DATA
  hasAutoStarted := false
  hasInitialized := true
  isAIThinking := false
  projectHasSolutionWheel := true
  hasProjectId := true

/-- A concrete accepted reflection response. -/
def reflectionResult : ApiResult where
  success := true
  feedback := some ["first reflection".data]

/-- C7 witness: two consecutive trigger evaluations on the fresh state with
an accepted first response yield one entry, one transition, and a no-op
second evaluation. -/
theorem autoStart_fires_once_witness :
    (evalAutoStart freshComponent (some reflectionResult) 5).labData.conversationHistory =
      [⟨MsgRole.ai, joinParas ["first reflection".data], 5, StageId.initialReflection⟩] ∧
    (evalAutoStart freshComponent (some reflectionResult) 5).labData.currentStage =
      StageId.choosingDirections ∧
    (evalAutoStart freshComponent (some reflectionResult) 5).hasAutoStarted = true ∧
    evalAutoStart (evalAutoStart freshComponent (some reflectionResult) 5) none 6 =
      evalAutoStart freshComponent (some reflectionResult) 5 :=
  autoStart_fires_once freshComponent reflectionResult ["first reflection".data]
    none 5 6 rfl rfl rfl rfl rfl rfl rfl rfl rfl

/-- C8: reset, invokable from any state (locked included), clears the
conversation history, the idea bank, the selected candidates and the locked
variant, returns the stage to Reflect, re-arms the one-shot ref, persists
the cleared lab data, and — whenever the surrounding conditions the trigger
needs still hold — re-enables the automatic reflection trigger. -/
theorem handleReset_clears_and_rearms (s : ComponentState) :
    (handleReset s).1.labData.conversationHistory = [] ∧
    (handleReset s).1.labData.ideaBank = none ∧
    (handleReset s).1.labData.selectedSolutions = [] ∧
    (handleReset s).1.selectedSolutions = [] ∧
    (handleReset s).1.labData.lockedVariant = none ∧
    (handleReset s).1.labData.currentStage = StageId.initialReflection ∧
    (handleReset s).1.hasAutoStarted = false ∧
    (handleReset s).2 = [ProjectWrite.setCoFounderLab none] ∧
    (s.hasInitialized = true → s.projectHasSolutionWheel = true →
      s.isAIThinking = false → s.hasProjectId = true →
      autoStartCond (handleReset s).1 = true) := by
  refine ⟨rfl, rfl, rfl, rfl, rfl, rfl, rfl, rfl, ?_⟩
  intro h1 h2 h3 h4
  simp [handleReset, autoStartCond, EMPTY_LAB_DATA, h1, h2, h3, h4]

/-- A locked component state for the C8 witness. -/
def lockedComponent : ComponentState :=
  { freshComponent with
    labData := (onLockVariant labAtSelection ("idea one".data)).1
    hasAutoStarted := true }

/-- C8 witness: reset applied to a locked session clears everything,
returns to Reflect and re-arms the trigger. -/
theorem handleReset_clears_and_rearms_witness :
    (handleReset lockedComponent).1.labData.conversationHistory = [] ∧
    (handleReset lockedComponent).1.labData.lockedVariant = none ∧
    (handleReset lockedComponent).1.labData.currentStage = StageId.initialReflection ∧
    autoStartCond (handleReset lockedComponent).1 = true :=
  ⟨(handleReset_clears_and_rearms lockedComponent).1,
   (handleReset_clears_and_rearms lockedComponent).2.2.2.2.1,
   (handleReset_clears_and_rearms lockedComponent).2.2.2.2.2.1,
   (handleReset_clears_and_rearms lockedComponent).2.2.2.2.2.2.2.2 rfl rfl rfl rfl⟩

/-! ## AIOrchestrator (src/unnamed/part_012) and the prompt registry
(src/lib/ai/prompts/index.ts)

`buildContext` reads the Firestore project document (modelled as an
`Option ProjectData` store lookup), throws "Project not found" when the
document is missing, and the surrounding catch converts every error into
the minimal context `projectId + chosenProblem: null`.  `process` then
looks the prompt up in the static registry and routes review/generate
requests to the assistant (modelled as an oracle on the built context). -/

/-- The 4Ws problem statement record (the `where` field of the source is
named `whereW` here because `where` is reserved in Lean). -/
structure FourWs where
  what : List Char
  who : List Char
  whereW : List Char
  why : List Char
deriving DecidableEq

/-- A labelled resource link of the thinkBig zone. -/
structure ResourceLink where
  label : List Char
  url : List Char
deriving DecidableEq

/-- thinkBig zone data. -/
structure ThinkBigData where
  answers : List (List Char)
  resources : Option (List ResourceLink) := none
deriving DecidableEq

/-- thinkSmall zone data. -/
structure ThinkSmallData where
  answers : List (List Char)
  imageUrls : Option (List (List Char)) := none
deriving DecidableEq

/-- causes / motivation zone data. -/
structure AnswersOnly where
  answers : List (List Char)
deriving DecidableEq

/-- The problemExploration aggregate of the project document. -/
structure ProblemExploration where
  thinkBig : Option ThinkBigData := none
  thinkSmall : Option ThinkSmallData := none
  causes : Option AnswersOnly := none
  motivation : Option AnswersOnly := none
deriving DecidableEq

/-- The fields of the request payload (`request.data`) that buildContext
reads: zone answers, an inline 4Ws statement, and — for cofounder-lab
requests — the lab payload spread into currentZoneData. -/
structure RequestData where
  answers : Option (List (List Char)) := none
  problemStatement : Option FourWs := none
  labStage : Option StageId := none
deriving DecidableEq

/-- `currentZoneData` of the context; `labPayload` models the object spread
`...request.data` performed in the cofounder-lab branch. -/
structure CurrentZoneData where
  zoneId : List Char
  answers : List (List Char)
  labPayload : Option RequestData := none
deriving DecidableEq

/-- The `AIContext` interface of src/lib/ai/types.ts.  It has NO degraded
flag: its only fields are the project id and the optional data merges. -/
structure AIContext where
  projectId : List Char
  chosenProblem : Option (List Char)
  problemExploration : Option ProblemExploration := none
  problemStatement : Option FourWs := none
  currentZoneData : Option CurrentZoneData := none
deriving DecidableEq

/-- The `action` union of an AIRequest. -/
inductive ActionKind where
  | review
  | generate
  | suggest
deriving DecidableEq

/-- The `AIRequest` interface. -/
structure AIRequest where
  projectId : List Char
  stepId : List Char
  zoneId : Option (List Char) := none
  action : ActionKind
  data : Option RequestData := none
deriving DecidableEq

/-- The project-document fields buildContext reads. -/
structure ProjectData where
  chosenProblem : Option (List Char) := none
  problemExploration : Option ProblemExploration := none
  problemStatement : Option FourWs := none
deriving DecidableEq

/-- JavaScript truthiness for an optional string (the empty string is
falsy, as in `projectData.chosenProblem || null` and `request.zoneId ||
'cofounder-lab'`). -/
def jsStrTruthy : Option (List Char) → Option (List Char)
  | some s => if s = [] then none else some s
  | none => none

/-- `AIOrchestrator.buildContext`: a missing project document throws inside
the try block and the catch returns the minimal context; otherwise the
context merges the document data, then the zone answers, then an inline
4Ws statement, then the cofounder-lab payload. -/
def buildContext (req : AIRequest) (store : Option ProjectData) : AIContext :=
  match store with
  | none => { projectId := req.projectId, chosenProblem := none }
  | some pd =>
    let ctx0 : AIContext :=
      { projectId := req.projectId
        chosenProblem := jsStrTruthy pd.chosenProblem
        problemExploration := pd.problemExploration
        problemStatement := pd.problemStatement }
    let ctx1 :=
      match jsStrTruthy req.zoneId, req.data.bind RequestData.answers with
      | some z, some ans => { ctx0 with currentZoneData := some ⟨z, ans, none⟩ }
      | _, _ => ctx0
    let ctx2 :=
      if req.stepId = ("four-ws".data) then
        match req.data.bind RequestData.problemStatement with
        | some ps => { ctx1 with problemStatement := some ps }
        | none => ctx1
      else ctx1
    if req.stepId = ("cofounder-lab".data) then
      match req.data with
      | some d =>
        { ctx2 with currentZoneData := some (CurrentZoneData.mk
            ((jsStrTruthy req.zoneId).getD ("cofounder-lab".data)) (d.answers.getD []) (some d)) }
      | none => ctx2
    else ctx2

/-- The keys of `PROMPT_REGISTRY`. -/
def PROMPT_REGISTRY_KEYS : List (List Char) :=
  ["explore:thinkBig".data, "explore:thinkSmall".data, "explore:causes".data,
   "explore:motivation".data, "four-ws".data, "four-ws:what".data, "four-ws:who".data,
   "four-ws:where".data, "four-ws:why".data, "solutions:hiTech".data,
   "solutions:lowTech".data, "solutions:perspectives".data, "solutions:superpowers".data,
   "solutions:bottomlessDollar".data, "solutions:leader".data, "solutions:friends".data,
   "solutions:tinySeeds".data, "cofounder-lab".data]

/-- `getPrompt` key construction: `zoneId ? stageId:zoneId : stageId`. -/
def getPromptKey (stepId : List Char) (zoneId : Option (List Char)) : List Char :=
  match jsStrTruthy zoneId with
  | some z => stepId ++ [':'] ++ z
  | none => stepId

/-- Whether `getPrompt` finds a template (registry hit). -/
def getPromptFound (stepId : List Char) (zoneId : Option (List Char)) : Bool :=
  decide (getPromptKey stepId zoneId ∈ PROMPT_REGISTRY_KEYS)

/-- A response of `AIOrchestrator.process`. -/
structure OrchestratorResponse where
  feedback : List (List Char)
  followUpQuestion : Option (List Char)
  success : Bool
  error : Option (List Char) := none
  generatedItems : Option (List (List Char)) := none
deriving DecidableEq

/-- `AIOrchestrator.process`: builds the context (degrading, never
throwing, on a missing project), rejects a registry miss, routes review and
generate actions to the assistant on the built context, and rejects other
actions.  The assistant (OpenAI call + parse) is an oracle parameter. -/
def process (req : AIRequest) (store : Option ProjectData)
    (assistant : AIContext → OrchestratorResponse) : OrchestratorResponse :=
  let context := buildContext req store
  if getPromptFound req.stepId req.zoneId = false then
    { feedback := [], followUpQuestion := none, success := false
      error := some ("No prompt template found".data) }
  else
    match req.action with
    | ActionKind.review => assistant context
    | ActionKind.generate => assistant context
    | ActionKind.suggest =>
      { feedback := [], followUpQuestion := none, success := false
        error := some ("Unknown action".data) }

/-- A concrete request used to exhibit the missing-project behaviour. -/
def degradedReq : AIRequest where
  projectId := "p1".data
  stepId := "explore".data
  zoneId := some ("thinkBig".data)
  action := ActionKind.review

/-- C9 (counterexample): the minimal context returned for a missing project
carries no `degraded` flag.  The AIContext type has no such field, and the
context built for a missing project is literally identical to the context
built for an existing project document with no data — a caller cannot tell
degradation apart from an empty project. -/
theorem buildContext_no_degraded_flag :
    buildContext degradedReq none = buildContext degradedReq (some {}) ∧
    buildContext degradedReq none =
      { projectId := "p1".data, chosenProblem := none } := by
  exact ⟨by decide, rfl⟩

/-- C9 (amended): a missing project never fails or throws to the caller:
buildContext returns the minimal context (the project id with a null chosen
problem and nothing else), and process proceeds with exactly that context —
routing review/generate requests to the assistant instead of returning an
error — though the context carries no degraded flag. -/
theorem buildContext_degrades_and_proceeds (req : AIRequest)
    (assistant : AIContext → OrchestratorResponse)
    (hfound : getPromptFound req.stepId req.zoneId = true)
    (haction : req.action = ActionKind.review ∨ req.action = ActionKind.generate) :
    buildContext req none = { projectId := req.projectId, chosenProblem := none } ∧
    process req none assistant =
      assistant { projectId := req.projectId, chosenProblem := none } := by
  refine ⟨rfl, ?_⟩
  simp only [process, hfound, Bool.true_eq_false, if_false]
  rcases haction with h | h <;> rw [h] <;> rfl

/-- C9 witness: the amended theorem applied to a concrete request with a
registry hit, an oracle assistant, and a missing project. -/
theorem buildContext_degrades_and_proceeds_witness :
    process degradedReq none (fun ctx =>
        { feedback := [ctx.projectId], followUpQuestion := none, success := true }) =
      { feedback := ["p1".data], followUpQuestion := none, success := true } :=
  ((buildContext_degrades_and_proceeds degradedReq
      (fun ctx => { feedback := [ctx.projectId], followUpQuestion := none, success := true })
      (by decide) (Or.inl rfl)).2).trans rfl

/-! ## Response interpreter (ReviewAssistant.parseResponse,
src/lib/ai/assistants/ReviewAssistant.ts)

`parseResponse` first tries to read the (trimmed) raw text as a JSON array
of strings via `tryExtractArray` — stripping an optional leading fence
(three backticks, an optional case-insensitive json tag, whitespace) and an
optional trailing fence first, and on failure retrying on the slice from
the first opening bracket to the last closing bracket of the text.  When
that yields an array, the result is items mode; otherwise feedback mode
matches the regex `([.!]\s+)([^.!]+\?\s*)$` (dotall) against the raw text
to excise at most one trailing question, and the feedback is always a
single statement.  `JSON.parse` is modelled by a parser accepting exactly
the JSON arrays-of-strings grammar (whitespace, string escapes, rejecting
raw control characters and trailing input); a successful `JSON.parse` whose
value is not an array of strings is observationally identical to a parse
failure in this code, so both are `none` here.  The only deviation: a
`\u` escape denoting a lone UTF-16 surrogate is rejected rather than
producing an ill-formed character, since Lean characters are scalars. -/

/-- JSON structural whitespace. -/
def jsonWS (c : Char) : Bool :=
  c == ' ' || c == '\t' || c == '\n' || c == '\r'

/-- Skip JSON whitespace. -/
def jsonSkipWS : List Char → List Char
  | [] => []
  | c :: rest => if jsonWS c then jsonSkipWS rest else c :: rest

/-- A hexadecimal digit value. -/
def hexVal (c : Char) : Option Nat :=
  if '0' ≤ c ∧ c ≤ '9' then some (c.toNat - '0'.toNat)
  else if 'a' ≤ c ∧ c ≤ 'f' then some (c.toNat - 'a'.toNat + 10)
  else if 'A' ≤ c ∧ c ≤ 'F' then some (c.toNat - 'A'.toNat + 10)
  else none

/-- A single-character JSON escape. -/
def escChar (e : Char) : Option Char :=
  if e = '"' then some '"'
  else if e = '\\' then some '\\'
  else if e = '/' then some '/'
  else if e = 'b' then some (Char.ofNat 8)
  else if e = 'f' then some (Char.ofNat 12)
  else if e = 'n' then some '\n'
  else if e = 'r' then some '\r'
  else if e = 't' then some '\t'
  else none

/-- Parse the body of a JSON string after its opening quote; returns the
decoded characters and the input after the closing quote. -/
def parseJsonStringBody : List Char → Option (List Char × List Char)
  | [] => none
  | c :: rest =>
    if c = '"' then some ([], rest)
    else if c = '\\' then
      match rest with
      | 'u' :: h1 :: h2 :: h3 :: h4 :: rest2 =>
        match hexVal h1, hexVal h2, hexVal h3, hexVal h4 with
        | some a, some b, some c3, some c4 =>
          let n := ((a * 16 + b) * 16 + c3) * 16 + c4
          if 0xD800 ≤ n ∧ n ≤ 0xDFFF then none
          else
            match parseJsonStringBody rest2 with
            | some (s, r) => some (Char.ofNat n :: s, r)
            | none => none
        | _, _, _, _ => none
      | e :: rest2 =>
        match escChar e with
        | some ch =>
          match parseJsonStringBody rest2 with
          | some (s, r) => some (ch :: s, r)
          | none => none
        | none => none
      | [] => none
    else if c.toNat < 32 then none
    else
      match parseJsonStringBody rest with
      | some (s, r) => some (c :: s, r)
      | none => none

/-- Parse the items of a non-empty JSON string array, positioned at the
start of an item; `acc` holds the items read so far, reversed. -/
def parseJsonArrayItems (fuel : Nat) (input : List Char) (acc : List (List Char)) :
    Option (List (List Char)) :=
  match fuel with
  | 0 => none
  | fuel + 1 =>
    match input with
    | '"' :: rest =>
      match parseJsonStringBody rest with
      | none => none
      | some (s, r) =>
        match jsonSkipWS r with
        | ',' :: r2 => parseJsonArrayItems fuel (jsonSkipWS r2) (s :: acc)
        | ']' :: r2 => if jsonSkipWS r2 = [] then some ((s :: acc).reverse) else none
        | _ => none
    | _ => none

/-- `JSON.parse(text)` restricted to values that are arrays of strings:
`some items` exactly when the parse succeeds and the value is an array of
strings; any other outcome (parse error, or a JSON value that is not an
array of strings) is `none`, which is observationally what the assistant
code does with it. -/
def jsonStringArrayP (text : List Char) : Option (List (List Char)) :=
  match jsonSkipWS text with
  | '[' :: rest =>
    match jsonSkipWS rest with
    | ']' :: r2 => if jsonSkipWS r2 = [] then some [] else none
    | r1 => parseJsonArrayItems (text.length + 1) r1 []
  | _ => none

/-- The backtick character of a code fence. -/
def isBacktick (c : Char) : Bool := c.toNat == 96

/-- The replace of `^` + three backticks + optional case-insensitive json
tag + `\s*` with the empty string. -/
def stripLeadingFence (s : List Char) : List Char :=
  match s with
  | a :: b :: c :: rest =>
    if isBacktick a && isBacktick b && isBacktick c then
      let rest2 :=
        match rest with
        | d :: e :: f :: g :: tail =>
          if (d.toLower == 'j') && (e.toLower == 's') && (f.toLower == 'o') &&
              (g.toLower == 'n') then tail
          else rest
        | _ => rest
      rest2.dropWhile jsWS
    else s
  | _ => s

/-- The replace of `\s*` + three backticks + `$` with the empty string. -/
def stripTrailingFence (s : List Char) : List Char :=
  match s.reverse with
  | a :: b :: c :: revRest =>
    if isBacktick a && isBacktick b && isBacktick c then
      (revRest.dropWhile jsWS).reverse
    else s
  | _ => s

/-- The fence-stripping prelude of tryExtractArray: leading fence, trailing
fence, then trim. -/
def stripFences (s : List Char) : List Char :=
  jsTrim (stripTrailingFence (stripLeadingFence s))

/-- The fallback slice from the first opening bracket to the last closing
bracket of the text, when both exist in that order. -/
def bracketSlice (text : List Char) : Option (List Char) :=
  match List.findIdx? (fun c => c == '[') text,
        List.findIdx? (fun c => c == ']') text.reverse with
  | some start, some revStop =>
    let stop := text.length - 1 - revStop
    if start < stop then some ((text.drop start).take (stop + 1 - start)) else none
  | _, _ => none

/-- `tryExtractArray`: direct fence-stripped parse, then the bracket-slice
retry, then `null`. -/
def tryExtractArray (text : List Char) : Option (List (List Char)) :=
  match jsonStringArrayP (stripFences text) with
  | some arr => some arr
  | none =>
    match bracketSlice text with
    | some cand => jsonStringArrayP cand
    | none => none

/-- Whether `pat` occurs in `s` at position `i`. -/
def occursAt (pat s : List Char) (i : Nat) : Bool :=
  ((s.drop i).take pat.length) == pat

/-- JavaScript `s.lastIndexOf(pat)`. -/
def lastIndexOf (s pat : List Char) : Option Nat :=
  List.findSome? (fun j =>
    let i := s.length - j
    if occursAt pat s i then some i else none)
    (List.range (s.length + 1))

/-- No '.' or '!' occurs in `s` — the `[^.!]` character class. -/
def noDotBang (s : List Char) : Bool :=
  s.all (fun c => !(c == '.' || c == '!'))

/-- All of `s` is `\s` whitespace. -/
def allWS (s : List Char) : Bool := s.all jsWS

/-- Whether `[^.!]+\?\s*$` (dotall) matches the whole of `rest`: some
position `q ≥ 1` holds a question mark, everything before it is free of
'.' and '!', and everything after it is whitespace. -/
def tailQuestion (rest : List Char) : Bool :=
  (List.range rest.length).any (fun q =>
    decide (1 ≤ q) && (rest.getD q ' ' == '?') && noDotBang (rest.take q) &&
    allWS (rest.drop (q + 1)))

/-- The match of `/([.!]\s+)([^.!]+\?\s*)$/s` against `text`: the leftmost
start position wins, the `\s+` of group 1 is greedy, and when the pattern
matches, group 2 necessarily extends to the end of the text. -/
def questionMatch (text : List Char) : Option (List Char × List Char) :=
  List.findSome? (fun i =>
    let c := text.getD i ' '
    if c == '.' || c == '!' then
      let after := text.drop (i + 1)
      let kmax := (after.takeWhile jsWS).length
      List.findSome? (fun j =>
        let k := kmax - j
        let g2 := after.drop k
        if tailQuestion g2 then some (c :: after.take k, g2) else none)
        (List.range kmax)
    else none)
    (List.range text.length)

/-- The structured result of ReviewAssistant.parseResponse. -/
structure ParsedResponse where
  feedback : List (List Char)
  followUpQuestion : Option (List Char)
  generatedItems : Option (List (List Char)) := none
deriving DecidableEq

/-- `parseResponse`: items mode when tryExtractArray succeeds on the
trimmed text; otherwise feedback mode cuts the raw text at the last
occurrence of the matched group-1 boundary and returns one statement plus
the trimmed group 2 as the follow-up question. -/
def parseResponse (responseText : List Char) : ParsedResponse :=
  let trimmed := jsTrim responseText
  match tryExtractArray trimmed with
  | some array =>
    { feedback := [], followUpQuestion := none, generatedItems := some array }
  | none =>
    match questionMatch responseText with
    | some (g1, g2) =>
      let cut := (lastIndexOf responseText g1).getD 0 + g1.length
      let feedbackText := jsTrim (responseText.take cut)
      { feedback := if feedbackText = [] then [responseText] else [feedbackText]
        followUpQuestion := some (jsTrim g2) }
    | none => { feedback := [responseText], followUpQuestion := none }

/-- The `generatedItems` field of the `/api/ai` POST response:
`response.generatedItems || null` maps an absent field to null and passes
any present array (even empty) through, so it is the identity on this
model. -/
def apiGeneratedItems (responseText : List Char) : Option (List (List Char)) :=
  (parseResponse responseText).generatedItems

/-- The variants caller (`generateVariants`):
`Array.isArray(result.generatedItems) ? result.generatedItems : []`. -/
def variantOptionsFrom (responseText : List Char) : List (List Char) :=
  match apiGeneratedItems responseText with
  | some items => items
  | none => []

/-- The feedback-mode example input of the claim. -/
def c4Input : List Char := "1. foo\n2. bar\n\nWhat do you think?".data

/-- Unparsable garbage for the items-mode failure case. -/
def c5Garbage : List Char := "The model returned no JSON here".data

/-- A fence-wrapped JSON array of strings. -/
def c5Fenced : List Char := "```json\n[\"a\", \"b\", \"c\"]\n```".data

/-- C4 (counterexample): the interpreter does not split numbered-list
feedback.  On the claim input the parse does not yield the statements
foo and bar with the trailing question: the regex boundary lands inside
item 2, producing one statement plus a question that swallows bar. -/
theorem parseResponse_no_marker_split :
    parseResponse c4Input ≠
      { feedback := ["foo".data, "bar".data]
        followUpQuestion := some ("What do you think?".data) } ∧
    parseResponse c4Input =
      { feedback := ["1. foo\n2.".data]
        followUpQuestion := some ("bar\n\nWhat do you think?".data) } := by
  constructor
  · decide
  · decide

/-- C4 (amended): feedback mode never splits the text into multiple
statements — whenever items extraction fails, the feedback list has
exactly one entry, the text up to the matched question boundary — and at
most one trailing follow-up question is extracted; on the claim input the
result is the single statement with the question starting at the regex
boundary inside item 2. -/
theorem parseResponse_single_statement :
    (∀ t, tryExtractArray (jsTrim t) = none →
      (parseResponse t).feedback.length = 1 ∧
      ((parseResponse t).followUpQuestion = none ∨
        ∃ q, (parseResponse t).followUpQuestion = some q)) ∧
    parseResponse c4Input =
      { feedback := ["1. foo\n2.".data]
        followUpQuestion := some ("bar\n\nWhat do you think?".data) } := by
  constructor
  · intro t h
    simp only [parseResponse, h]
    cases hq : questionMatch t with
    | none => exact ⟨rfl, Or.inl rfl⟩
    | some p =>
      obtain ⟨g1, g2⟩ := p
      constructor
      · simp only
        split <;> rfl
      · exact Or.inr ⟨jsTrim g2, rfl⟩
  · decide

/-- C4 witness: the single-statement property applied at the claim input. -/
theorem parseResponse_single_statement_witness :
    (parseResponse c4Input).feedback.length = 1 :=
  ((parseResponse_single_statement).1 c4Input (by decide)).1

/-- C5 (counterexample): when every parse attempt fails, the interpreter
does not return an empty item list: it produces no items at all, so the
endpoint field `generatedItems` is null, not the empty array. -/
theorem items_failure_returns_null :
    tryExtractArray (jsTrim c5Garbage) = none ∧
    apiGeneratedItems c5Garbage = none ∧
    apiGeneratedItems c5Garbage ≠ some [] := by
  refine ⟨by decide, by decide, by decide⟩

/-- C5 (amended): every raw text that fence-strips to a JSON array of
strings parses to exactly that list of items (and the variants caller
receives it); when the direct parse fails, the slice from the first
opening bracket to the last closing bracket is retried; when every
attempt fails, the interpreter returns no item list — `generatedItems`
is null at the endpoint — and the variants caller coerces that null to
an empty list. -/
theorem items_mode_semantics (t : List Char) :
    (∀ l, jsonStringArrayP (stripFences (jsTrim t)) = some l →
      parseResponse t =
        { feedback := [], followUpQuestion := none, generatedItems := some l } ∧
      variantOptionsFrom t = l) ∧
    (∀ l cand, jsonStringArrayP (stripFences (jsTrim t)) = none →
      bracketSlice (jsTrim t) = some cand → jsonStringArrayP cand = some l →
      tryExtractArray (jsTrim t) = some l) ∧
    (tryExtractArray (jsTrim t) = none →
      apiGeneratedItems t = none ∧ variantOptionsFrom t = []) := by
  refine ⟨?_, ?_, ?_⟩
  · intro l h
    have hx : tryExtractArray (jsTrim t) = some l := by
      simp only [tryExtractArray, h]
    constructor
    · simp only [parseResponse, hx]
    · simp only [variantOptionsFrom, apiGeneratedItems, parseResponse, hx]
  · intro l cand h hs hp
    simp only [tryExtractArray, h, hs, hp]
  · intro h
    have hgen : (parseResponse t).generatedItems = none := by
      simp only [parseResponse, h]
      cases hq : questionMatch t with
      | none => rfl
      | some p => obtain ⟨g1, g2⟩ := p; simp only
    refine ⟨hgen, ?_⟩
    simp only [variantOptionsFrom, apiGeneratedItems, hgen]

/-- C5 witness: the items-mode semantics applied at the fence-wrapped
array and at the garbage input. -/
theorem items_mode_semantics_witness :
    parseResponse c5Fenced =
      { feedback := [], followUpQuestion := none
        generatedItems := some ["a".data, "b".data, "c".data] } ∧
    variantOptionsFrom c5Fenced = ["a".data, "b".data, "c".data] ∧
    apiGeneratedItems c5Garbage = none :=
  ⟨((items_mode_semantics c5Fenced).1 _ (by decide)).1,
   ((items_mode_semantics c5Fenced).1 _ (by decide)).2,
   ((items_mode_semantics c5Garbage).2.2 (by decide)).1⟩

end ProblemFinder
